import Mathlib

/-!
Verification of the `fastly_tls_subscription` Terraform resource
(`fastly/resource_fastly_tls_subscription.go`) and the `hashcode` utility
(`fastly/hashcode/hashcode.go`).

The Go handlers are embedded shallowly: remote calls become explicit
result parameters (`Except`/inductive results), the Terraform
`ResourceData` getters/setters become fields of plain structures, and the
out-of-bounds slice index in the legacy challenge block is modelled by an
outer `Option` (with `none` standing for the Go runtime panic).
-/

namespace FastlyTLS

/-- A TLS activation as returned by the Fastly API: the code only reads
`Activations[0].Configuration.ID`, so the configuration ID is the one field
kept. -/
structure TLSActivation where
  configurationID : String
  deriving DecidableEq, Repr

/-- A TLS domain as returned by `ListTLSDomains`.  In Go, `Activations` is a
slice that may be `nil` (absent, `omitempty`) or empty; `none` models the
`nil` slice, `some []` the present-but-empty slice. -/
structure TLSDomain where
  id : String
  activations : Option (List TLSActivation)
  deriving DecidableEq, Repr

/-- A domain-ownership challenge (`gofastly.TLSChallenge`): a challenge type
(`ctype`, the Go field `Type`), a record type, a record name, and a list of
record values. -/
structure TLSChallenge where
  ctype : String
  recordType : String
  recordName : String
  values : List String
  deriving DecidableEq, Repr

/-- An authorization (`gofastly.TLSAuthorizations`): the code only iterates
its `Challenges`. -/
structure TLSAuthorization where
  challenges : List TLSChallenge
  deriving DecidableEq, Repr

/-- The subscription payload returned by `GetTLSSubscription`, restricted to
the fields the Read handler consumes.  `commonName` is `CommonName.ID`,
`configurationID` is `Configuration.ID`, `certificates` is the list of
certificate IDs, and the two timestamps are kept as already-formatted
strings (the RFC3339 formatting is not claim-relevant). -/
structure TLSSubscription where
  certificateAuthority : String
  commonName : String
  configurationID : String
  certificates : List String
  domains : List TLSDomain
  authorizations : List TLSAuthorization
  state : String
  createdAt : String
  updatedAt : String
  deriving DecidableEq, Repr

/-- The configuration-ID resolution loop of the Read handler (lines
313–326): walk the `ListTLSDomains` response; a domain whose `Activations`
slice is `nil` breaks out of the loop; a domain with a present but empty
slice is skipped; the first domain with a non-empty slice overrides the
configuration ID with `Activations[0].Configuration.ID` and breaks.  The
initial value is `subscription.Configuration.ID` (line 303). -/
def resolveConfigurationID (subConfigID : String) : List TLSDomain → String
  | [] => subConfigID
  | d :: ds =>
    match d.activations with
    | none => subConfigID
    | some [] => resolveConfigurationID subConfigID ds
    | some (a :: _) => a.configurationID

/-- An element appended to the `managed_dns_challenges` set: record type,
record name, and the single captured record value (`challenge.Values[0]`). -/
structure ManagedDNSChallenge where
  recordType : String
  recordName : String
  recordValue : String
  deriving DecidableEq, Repr

/-- An element appended to the `managed_http_challenges` set: record type,
record name, and all record values (`challenge.Values`). -/
structure ManagedHTTPChallenge where
  recordType : String
  recordName : String
  recordValues : List String
  deriving DecidableEq, Repr

/-- The challenge-partition loop body of the Read handler (lines 233–251),
over one authorization's challenge list: a challenge of type `managed-dns`
with no values aborts with `diag.Errorf`; otherwise a `managed-dns`
challenge contributes one DNS entry carrying `Values[0]`, and every other
challenge contributes one HTTP entry carrying all its values. -/
def classifyChallenges : List TLSChallenge →
    Except String (List ManagedDNSChallenge × List ManagedHTTPChallenge)
  | [] => .ok ([], [])
  | c :: cs =>
    if c.ctype = "managed-dns" then
      match c.values with
      | [] => .error "fastly API returned no record values for Managed DNS Challenges"
      | v :: _ =>
        match classifyChallenges cs with
        | .error e => .error e
        | .ok (ds, hs) => .ok (⟨c.recordType, c.recordName, v⟩ :: ds, hs)
    else
      match classifyChallenges cs with
      | .error e => .error e
      | .ok (ds, hs) => .ok (ds, ⟨c.recordType, c.recordName, c.values⟩ :: hs)

/-- The outer loop of the challenge partition (line 232): iterate over
`subscription.Authorizations`, accumulating DNS and HTTP entries in order. -/
def classifyAuthorizations : List TLSAuthorization →
    Except String (List ManagedDNSChallenge × List ManagedHTTPChallenge)
  | [] => .ok ([], [])
  | a :: as_ =>
    match classifyChallenges a.challenges with
    | .error e => .error e
    | .ok (d₁, h₁) =>
      match classifyAuthorizations as_ with
      | .error e => .error e
      | .ok (d₂, h₂) => .ok (d₁ ++ d₂, h₁ ++ h₂)

/-- The legacy `managed_dns_challenge` map kept by the backward-compat
block (lines 260–273): scan one challenge list; each `managed-dns`
challenge overwrites the map (so the last one wins), and a `managed-dns`
challenge with no values aborts with `diag.Errorf`. -/
def legacyDNSChallengeLoop (acc : Option ManagedDNSChallenge) :
    List TLSChallenge → Except String (Option ManagedDNSChallenge)
  | [] => .ok acc
  | c :: cs =>
    if c.ctype = "managed-dns" then
      match c.values with
      | [] => .error "fastly API returned no record values for Managed DNS Challenge"
      | v :: _ => legacyDNSChallengeLoop (some ⟨c.recordType, c.recordName, v⟩) cs
    else legacyDNSChallengeLoop acc cs

deriving instance DecidableEq for Except

/-- The result of the `GetTLSSubscription` remote call as the Read handler
discriminates it: a not-found `HTTPError`, any other error, or a payload. -/
inductive GetSubscriptionResult where
  | notFound
  | failed (msg : String)
  | ok (sub : TLSSubscription)
  deriving DecidableEq, Repr

/-- The remote responses observed during one Read: the subscription fetch
and the `ListTLSDomains` call. -/
structure ReadEnv where
  getResult : GetSubscriptionResult
  listDomainsResult : Except String (List TLSDomain)
  deriving DecidableEq, Repr

/-- The state written by a successful Read (the `d.Set` calls). -/
structure ResourceState where
  domains : List String
  commonName : String
  certificateID : String
  certificateAuthority : String
  configurationID : String
  createdAt : String
  updatedAt : String
  state : String
  managedDNSChallenge : Option ManagedDNSChallenge
  managedDNSChallenges : List ManagedDNSChallenge
  managedHTTPChallenges : List ManagedHTTPChallenge
  deriving DecidableEq, Repr

/-- How one Read invocation ends: a not-found warning that clears the ID, a
fatal diagnostic, or a fully populated state. -/
inductive ReadOutcome where
  | warningRemoved (id : String)
  | fatal (msg : String)
  | ok (st : ResourceState)
  deriving DecidableEq, Repr

/-- `resourceFastlyTLSSubscriptionRead` (lines 194–350).  The outer
`Option` models the Go runtime panic: `subscription.Authorizations[0]`
(line 261) is indexed unconditionally, so an empty authorizations list is
out of bounds and no diagnostic is produced (`none`).  The error of
`ListTLSDomains` is discarded by the code (`tlsDomains, _ = ...`, line
308); on failure the slice stays `nil` and the loop body never runs, which
the model renders by substituting the empty list.  The infallible `d.Set`
calls are collapsed into the final `ResourceState`. -/
def resourceFastlyTLSSubscriptionRead (id : String) (env : ReadEnv) :
    Option ReadOutcome :=
  match env.getResult with
  | .notFound => some (.warningRemoved id)
  | .failed msg => some (.fatal msg)
  | .ok sub =>
    let domains := sub.domains.map TLSDomain.id
    let certificateID := match sub.certificates with
      | [] => ""
      | c :: _ => c
    match classifyAuthorizations sub.authorizations with
    | .error msg => some (.fatal msg)
    | .ok (dnsChallenges, httpChallenges) =>
      match sub.authorizations with
      | [] => none
      | a₀ :: _ =>
        match legacyDNSChallengeLoop none a₀.challenges with
        | .error msg => some (.fatal msg)
        | .ok legacy =>
          let tlsDomains := match env.listDomainsResult with
            | .ok l => l
            | .error _ => []
          some (.ok
            { domains := domains
              commonName := sub.commonName
              certificateID := certificateID
              certificateAuthority := sub.certificateAuthority
              configurationID := resolveConfigurationID sub.configurationID tlsDomains
              createdAt := sub.createdAt
              updatedAt := sub.updatedAt
              state := sub.state
              managedDNSChallenge := legacy
              managedDNSChallenges := dnsChallenges
              managedHTTPChallenges := httpChallenges })

/-- The attribute values `resourceFastlyTLSSubscriptionUpdate` reads: for
`domains` and `common_name` both the last-read (`old`) and the planned
(`new`) value, since `d.HasChanges` compares them; `d.Get` returns the
planned value.  The `domains` lists stand for the schema sets. -/
structure UpdateContext where
  id : String
  oldDomains : List String
  newDomains : List String
  oldCommonName : String
  newCommonName : String
  configurationID : String
  forceUpdate : Bool
  deriving DecidableEq, Repr

/-- `gofastly.UpdateTLSSubscriptionInput` as populated on lines 376–384. -/
structure UpdateTLSSubscriptionInput where
  id : String
  force : Bool
  commonName : String
  domains : List String
  configurationID : String
  deriving DecidableEq, Repr

/-- How the Update handler ends: a fatal diagnostic from the remote update
call, or falling through to `resourceFastlyTLSSubscriptionRead`. -/
inductive UpdateOutcome where
  | fatal (msg : String)
  | readPerformed
  deriving DecidableEq, Repr

/-- `resourceFastlyTLSSubscriptionUpdate` (lines 352–395): the remote call
is wrapped in `d.HasChanges("domains", "common_name")`; when issued it
carries the full domain set, the common name and the configuration ID, and
a remote error returns immediately; otherwise the handler tail-calls Read.
The first component records the `UpdateTLSSubscriptionInput` sent (or
`none` when no remote call is made); `remote` is the outcome of
`conn.UpdateTLSSubscription`. -/
def resourceFastlyTLSSubscriptionUpdate (c : UpdateContext)
    (remote : Except String Unit) :
    Option UpdateTLSSubscriptionInput × UpdateOutcome :=
  if c.newDomains ≠ c.oldDomains ∨ c.newCommonName ≠ c.oldCommonName then
    let updates : UpdateTLSSubscriptionInput :=
      { id := c.id
        force := c.forceUpdate
        commonName := c.newCommonName
        domains := c.newDomains
        configurationID := c.configurationID }
    match remote with
    | .error e => (some updates, .fatal e)
    | .ok _ => (some updates, .readPerformed)
  else (none, .readPerformed)

/-- Modelled from the spec: the `contains` helper called at create time is
defined outside the provided sources; per the spec, create "validates
common name is a member of the domain set", so it is list membership. -/
def contains (l : List String) (s : String) : Bool := l.contains s

/-- The attribute values `resourceFastlyTLSSubscriptionCreate` reads;
`none` for `commonName`/`configurationID` models `d.GetOk` reporting the
attribute unset. -/
structure CreateContext where
  certificateAuthority : String
  configurationID : Option String
  domains : List String
  commonName : Option String
  deriving DecidableEq, Repr

/-- `gofastly.CreateTLSSubscriptionInput` as populated on lines 179–184. -/
structure CreateTLSSubscriptionInput where
  certificateAuthority : String
  configurationID : Option String
  domains : List String
  commonName : Option String
  deriving DecidableEq, Repr

/-- `resourceFastlyTLSSubscriptionCreate` up to the remote create call
(lines 155–184): when a common name is supplied and is not contained in the
domain list, `diag.Errorf` is returned before `conn.CreateTLSSubscription`
is invoked; otherwise the populated input is handed to the remote call
(`.ok` carries the issued request).  The offending values interpolated into
the Go message are elided. -/
def resourceFastlyTLSSubscriptionCreate (c : CreateContext) :
    Except String CreateTLSSubscriptionInput :=
  match c.commonName with
  | some cn =>
    if contains c.domains cn then
      .ok ⟨c.certificateAuthority, c.configurationID, c.domains, some cn⟩
    else
      .error "domain specified as common_name must also be in domains"
  | none => .ok ⟨c.certificateAuthority, c.configurationID, c.domains, none⟩

/-- `resourceFastlyTLSSubscriptionIsStateImmutable` (lines 407–410). -/
def resourceFastlyTLSSubscriptionIsStateImmutable (state : String) : Bool :=
  state ≠ "issued" && state ≠ "pending"

/-- Modelled from the spec: `customdiff.ForceNewIf` (plugin SDK, outside
the sources) forces replacement of a key exactly when the key has a planned
change and the supplied predicate returns true; the predicate wired to all
three keys is `resourceFastlyTLSSubscriptionIsStateImmutable`. -/
def forceNewIf (changed : Bool) (state : String) : Bool :=
  changed && resourceFastlyTLSSubscriptionIsStateImmutable state

/-- The three `customdiff.ForceNewIf` rules of `resourceFastlyTLSSubscription`
(lines 29–31) combined: the plan forces replacement when any of
`configuration_id`, `domains`, `common_name` changed and the last-known
state is immutable. -/
def resourceForcesReplacement (cfgChanged domainsChanged commonNameChanged : Bool)
    (state : String) : Bool :=
  forceNewIf cfgChanged state || forceNewIf domainsChanged state ||
    forceNewIf commonNameChanged state

/-- Modelled from the spec: `strings.ToLower` (Go standard library, outside
the sources) lowercases every rune by the Unicode simple lowercase mapping
(the spec: "the remote API silently lowercases these").  The case table is
embodied as compressed runs `(lo, hi, stride, delta)`: a code point `c`
with `lo ≤ c ≤ hi` and `(c - lo) % stride = 0` lowers to `c + delta`;
every other code point is unchanged. -/
def lowerCaseRuns : List (Nat × Nat × Nat × Int) :=
  [(65, 90, 1, 32), (192, 214, 1, 32), (216, 222, 1, 32), (256, 302, 2, 1),
   (304, 304, 1, -199), (306, 310, 2, 1), (313, 327, 2, 1), (330, 374, 2, 1),
   (376, 376, 1, -121), (377, 381, 2, 1), (385, 385, 1, 210),
   (386, 388, 2, 1), (390, 390, 1, 206), (391, 391, 1, 1), (393, 394, 1, 205),
   (395, 395, 1, 1), (398, 398, 1, 79), (399, 399, 1, 202),
   (400, 400, 1, 203), (401, 401, 1, 1), (403, 403, 1, 205),
   (404, 404, 1, 207), (406, 406, 1, 211), (407, 407, 1, 209),
   (408, 408, 1, 1), (412, 412, 1, 211), (413, 413, 1, 213),
   (415, 415, 1, 214), (416, 420, 2, 1), (422, 422, 1, 218), (423, 423, 1, 1),
   (425, 425, 1, 218), (428, 428, 1, 1), (430, 430, 1, 218), (431, 431, 1, 1),
   (433, 434, 1, 217), (435, 437, 2, 1), (439, 439, 1, 219), (440, 444, 4, 1),
   (452, 452, 1, 2), (453, 453, 1, 1), (455, 455, 1, 2), (456, 456, 1, 1),
   (458, 458, 1, 2), (459, 475, 2, 1), (478, 494, 2, 1), (497, 497, 1, 2),
   (498, 500, 2, 1), (502, 502, 1, -97), (503, 503, 1, -56), (504, 542, 2, 1),
   (544, 544, 1, -130), (546, 562, 2, 1), (570, 570, 1, 10795),
   (571, 571, 1, 1), (573, 573, 1, -163), (574, 574, 1, 10792),
   (577, 577, 1, 1), (579, 579, 1, -195), (580, 580, 1, 69),
   (581, 581, 1, 71), (582, 590, 2, 1), (880, 882, 2, 1), (886, 886, 1, 1),
   (895, 895, 1, 116), (902, 902, 1, 38), (904, 906, 1, 37),
   (908, 908, 1, 64), (910, 911, 1, 63), (913, 929, 1, 32), (931, 939, 1, 32),
   (975, 975, 1, 8), (984, 1006, 2, 1), (1012, 1012, 1, -60),
   (1015, 1015, 1, 1), (1017, 1017, 1, -7), (1018, 1018, 1, 1),
   (1021, 1023, 1, -130), (1024, 1039, 1, 80), (1040, 1071, 1, 32),
   (1120, 1152, 2, 1), (1162, 1214, 2, 1), (1216, 1216, 1, 15),
   (1217, 1229, 2, 1), (1232, 1326, 2, 1), (1329, 1366, 1, 48),
   (4256, 4293, 1, 7264), (4295, 4301, 6, 7264), (5024, 5103, 1, 38864),
   (5104, 5109, 1, 8), (7312, 7354, 1, -3008), (7357, 7359, 1, -3008),
   (7680, 7828, 2, 1), (7838, 7838, 1, -7615), (7840, 7934, 2, 1),
   (7944, 7951, 1, -8), (7960, 7965, 1, -8), (7976, 7983, 1, -8),
   (7992, 7999, 1, -8), (8008, 8013, 1, -8), (8025, 8031, 2, -8),
   (8040, 8047, 1, -8), (8072, 8079, 1, -8), (8088, 8095, 1, -8),
   (8104, 8111, 1, -8), (8120, 8121, 1, -8), (8122, 8123, 1, -74),
   (8124, 8124, 1, -9), (8136, 8139, 1, -86), (8140, 8140, 1, -9),
   (8152, 8153, 1, -8), (8154, 8155, 1, -100), (8168, 8169, 1, -8),
   (8170, 8171, 1, -112), (8172, 8172, 1, -7), (8184, 8185, 1, -128),
   (8186, 8187, 1, -126), (8188, 8188, 1, -9), (8486, 8486, 1, -7517),
   (8490, 8490, 1, -8383), (8491, 8491, 1, -8262), (8498, 8498, 1, 28),
   (8544, 8559, 1, 16), (8579, 8579, 1, 1), (9398, 9423, 1, 26),
   (11264, 11311, 1, 48), (11360, 11360, 1, 1), (11362, 11362, 1, -10743),
   (11363, 11363, 1, -3814), (11364, 11364, 1, -10727), (11367, 11371, 2, 1),
   (11373, 11373, 1, -10780), (11374, 11374, 1, -10749),
   (11375, 11375, 1, -10783), (11376, 11376, 1, -10782), (11378, 11381, 3, 1),
   (11390, 11391, 1, -10815), (11392, 11490, 2, 1), (11499, 11501, 2, 1),
   (11506, 42560, 31054, 1), (42562, 42604, 2, 1), (42624, 42650, 2, 1),
   (42786, 42798, 2, 1), (42802, 42862, 2, 1), (42873, 42875, 2, 1),
   (42877, 42877, 1, -35332), (42878, 42886, 2, 1), (42891, 42891, 1, 1),
   (42893, 42893, 1, -42280), (42896, 42898, 2, 1), (42902, 42920, 2, 1),
   (42922, 42922, 1, -42308), (42923, 42923, 1, -42319),
   (42924, 42924, 1, -42315), (42925, 42925, 1, -42305),
   (42926, 42926, 1, -42308), (42928, 42928, 1, -42258),
   (42929, 42929, 1, -42282), (42930, 42930, 1, -42261),
   (42931, 42931, 1, 928), (42932, 42946, 2, 1), (42948, 42948, 1, -48),
   (42949, 42949, 1, -42307), (42950, 42950, 1, -35384), (42951, 42953, 2, 1),
   (42960, 42966, 6, 1), (42968, 42997, 29, 1), (65313, 65338, 1, 32),
   (66560, 66599, 1, 40), (66736, 66771, 1, 40), (66928, 66938, 1, 39),
   (66940, 66954, 1, 39), (66956, 66962, 1, 39), (66964, 66965, 1, 39),
   (68736, 68786, 1, 64), (71840, 71871, 1, 32), (93760, 93791, 1, 32),
   (125184, 125217, 1, 34)]

/-- The lowercase delta of a code point under the run table: the delta of
the first run whose span and stride match, 0 when none does. -/
def lowerDelta (c : Nat) : List (Nat × Nat × Nat × Int) → Int
  | [] => 0
  | (lo, hi, stride, delta) :: rest =>
    if lo ≤ c ∧ c ≤ hi ∧ (c - lo) % stride = 0 then delta
    else lowerDelta c rest

/-- `unicode.ToLower` on one character: apply the simple lowercase
mapping, leaving characters without a distinct lowercase form unchanged. -/
def unicodeToLower (c : Char) : Char :=
  Char.ofNat (((c.toNat : Int) + lowerDelta c.toNat lowerCaseRuns).toNat)

/-- Character-wise lowering of a string, modelling Go's `strings.ToLower`
(`strings.Map(unicode.ToLower, s)`). -/
def goToLower (s : String) : String := ⟨s.data.map unicodeToLower⟩

/-- `resourceFastlyTLSSubscriptionValidateDomains` (lines 430–437): the
first domain differing from its lowercase form aborts with an error.  The
offending values interpolated into the Go message are elided. -/
def resourceFastlyTLSSubscriptionValidateDomains : List String → Except String Unit
  | [] => .ok ()
  | d :: ds =>
    if d ≠ goToLower d then
      .error "tls subscription domains must not contain uppercase letters"
    else resourceFastlyTLSSubscriptionValidateDomains ds

/-- `resourceFastlyTLSSubscriptionValidateCommonName` (lines 439–444). -/
def resourceFastlyTLSSubscriptionValidateCommonName (cn : String) :
    Except String Unit :=
  if cn ≠ goToLower cn then
    .error "tls subscription common_name must not contain uppercase letters"
  else .ok ()

/-- If every domain in the list carries a `nil` or empty activation slice,
the resolution loop keeps the subscription's own configuration ID. -/
theorem resolveConfigurationID_eq_self (subConfigID : String) (l : List TLSDomain)
    (h : ∀ d ∈ l, d.activations = none ∨ d.activations = some []) :
    resolveConfigurationID subConfigID l = subConfigID := by
  induction l with
  | nil => rfl
  | cons d ds ih =>
    rcases h d (List.mem_cons_self d ds) with hd | hd
    · simp [resolveConfigurationID, hd]
    · simp only [resolveConfigurationID, hd]
      exact ih fun x hx => h x (List.mem_cons_of_mem d hx)

/-- Claim C6 (confirmed): during Read, if no domain returned by the
domain-listing call has any activation, the stored `configuration_id`
equals the subscription's own configuration reference, and the outcome is
unchanged under any reordering of the response list. -/
theorem tls_read_config_default_no_activations (subConfigID : String)
    (l l' : List TLSDomain)
    (h : ∀ d ∈ l, d.activations = none ∨ d.activations = some [])
    (hperm : l.Perm l') :
    resolveConfigurationID subConfigID l = subConfigID ∧
      resolveConfigurationID subConfigID l' = subConfigID := by
  refine ⟨resolveConfigurationID_eq_self subConfigID l h, ?_⟩
  exact resolveConfigurationID_eq_self subConfigID l'
    fun d hd => h d (hperm.mem_iff.mpr hd)

/-- Witness for C6 at a concrete two-domain response and its swap. -/
theorem tls_read_config_default_no_activations_witness :
    resolveConfigurationID "cfgSub" [⟨"d1", none⟩, ⟨"d2", some []⟩] = "cfgSub" ∧
      resolveConfigurationID "cfgSub" [⟨"d2", some []⟩, ⟨"d1", none⟩] = "cfgSub" :=
  tls_read_config_default_no_activations "cfgSub"
    [⟨"d1", none⟩, ⟨"d2", some []⟩] [⟨"d2", some []⟩, ⟨"d1", none⟩]
    (by decide) (by decide)

/-- Claim C1 (counterexample): with the subscription's own configuration
`c1`, a first listed domain whose activation slice is absent (`nil`) and a
second domain carrying one activation with configuration `c2`, the stored
configuration ID stays `c1`, not the `c2` the claim requires ("regardless
of whether domains earlier in the list have empty or absent activation
lists"): the loop breaks on a `nil` activation slice. -/
theorem tls_read_config_override_cex :
    resolveConfigurationID "c1" [⟨"d1", none⟩, ⟨"d2", some [⟨"c2"⟩]⟩] = "c1" ∧
      ("c1" : String) ≠ "c2" := by
  exact ⟨rfl, by decide⟩

/-- Claim C1 (corrected): if every domain strictly before the first domain
with a non-empty activation list has a present-but-empty activation slice,
then the stored `configuration_id` equals the configuration ID of the first
activation of that domain; a domain with an absent (`nil`) activation slice
instead terminates the scan, leaving the subscription's own configuration
reference. -/
theorem tls_read_config_override_amended (subConfigID : String)
    (l₁ l₂ : List TLSDomain) (d : TLSDomain) (a : TLSActivation)
    (rest : List TLSActivation)
    (h₁ : ∀ e ∈ l₁, e.activations = some [])
    (h₂ : d.activations = some (a :: rest)) :
    resolveConfigurationID subConfigID (l₁ ++ d :: l₂) = a.configurationID := by
  induction l₁ with
  | nil => simp [resolveConfigurationID, h₂]
  | cons e es ih =>
    have he : e.activations = some [] := h₁ e (List.mem_cons_self e es)
    simp only [List.cons_append, resolveConfigurationID, he]
    exact ih fun x hx => h₁ x (List.mem_cons_of_mem e hx)

/-- Witness for the amended C1 at a concrete response list: an empty (but
present) activation slice first, then a domain activated on `c2`. -/
theorem tls_read_config_override_amended_witness :
    resolveConfigurationID "c1"
      ([⟨"d0", some []⟩] ++ ⟨"d2", some [⟨"c2"⟩]⟩ :: []) = "c2" :=
  tls_read_config_override_amended "c1" [⟨"d0", some []⟩] []
    ⟨"d2", some [⟨"c2"⟩]⟩ ⟨"c2"⟩ [] (by decide) rfl

/-- Discriminator: did a Read end in a fatal diagnostic? -/
def ReadOutcome.isFatal : ReadOutcome → Bool
  | .fatal _ => true
  | _ => false

/-- A concrete healthy subscription payload, used to exercise Read. -/
def sampleSubscription : TLSSubscription :=
  { certificateAuthority := "lets-encrypt"
    commonName := "x.com"
    configurationID := "c1"
    certificates := ["cert1"]
    domains := [⟨"x.com", none⟩]
    authorizations := [⟨[⟨"managed-dns", "CNAME", "_acme.x.com", ["v1"]⟩]⟩]
    state := "issued"
    createdAt := "t0"
    updatedAt := "t1" }

/-- Claim C2 (counterexample): with a healthy subscription payload but a
failing `ListTLSDomains` call, Read does not return a fatal diagnostic —
the listing error is discarded (`tlsDomains, _ = ...`) and Read completes
normally, contradicting "if the domain-listing call made during Read
fails, Read returns a fatal diagnostic". -/
theorem tls_read_listing_failure_cex :
    (resourceFastlyTLSSubscriptionRead "sid"
        ⟨.ok sampleSubscription, .error "remote failure"⟩).map ReadOutcome.isFatal
      = some false := by
  rfl

/-- Claim C2 (corrected): a not-found on the subscription fetch yields the
non-fatal removal warning; any other subscription-fetch failure is
propagated as a fatal diagnostic; but a failure of the domain-listing call
is silently discarded — Read behaves exactly as if the call had returned
an empty list, so the subscription's own configuration reference is kept. -/
theorem tls_read_remote_failures_amended (id msg e : String)
    (sub : TLSSubscription) (r : Except String (List TLSDomain)) :
    resourceFastlyTLSSubscriptionRead id ⟨.failed msg, r⟩ = some (.fatal msg) ∧
    resourceFastlyTLSSubscriptionRead id ⟨.notFound, r⟩ = some (.warningRemoved id) ∧
    resourceFastlyTLSSubscriptionRead id ⟨.ok sub, .error e⟩ =
      resourceFastlyTLSSubscriptionRead id ⟨.ok sub, .ok []⟩ :=
  ⟨rfl, rfl, rfl⟩

/-- Claim C9 (confirmed): when the subscription fetch succeeds, Read
reaches the unguarded `subscription.Authorizations[0]` index, so it panics
(no outcome at all, neither diagnostic nor state) exactly when the
authorizations list is empty. -/
theorem tls_read_panics_iff_no_authorizations (id : String) (env : ReadEnv)
    (sub : TLSSubscription) (hget : env.getResult = .ok sub) :
    resourceFastlyTLSSubscriptionRead id env = none ↔ sub.authorizations = [] := by
  obtain ⟨g, r⟩ := env
  cases hget
  constructor
  · intro hnone
    by_contra hne
    obtain ⟨a₀, rest, hauth⟩ : ∃ a₀ rest, sub.authorizations = a₀ :: rest := by
      cases hcase : sub.authorizations with
      | nil => exact absurd hcase hne
      | cons a₀ rest => exact ⟨a₀, rest, rfl⟩
    simp only [resourceFastlyTLSSubscriptionRead, hauth] at hnone
    cases hcls : classifyAuthorizations (a₀ :: rest) with
    | error m => simp [hcls] at hnone
    | ok p =>
      obtain ⟨ds, hs⟩ := p
      simp only [hcls] at hnone
      cases hleg : legacyDNSChallengeLoop none a₀.challenges with
      | error m => simp [hleg] at hnone
      | ok acc => simp [hleg] at hnone
  · intro hempty
    simp [resourceFastlyTLSSubscriptionRead, hempty, classifyAuthorizations]

/-- Witness for C9: a payload with zero authorizations makes Read panic. -/
theorem tls_read_panics_iff_no_authorizations_witness :
    resourceFastlyTLSSubscriptionRead "sid"
      ⟨.ok { sampleSubscription with authorizations := [] }, .ok []⟩ = none :=
  (tls_read_panics_iff_no_authorizations "sid"
      ⟨.ok { sampleSubscription with authorizations := [] }, .ok []⟩
      { sampleSubscription with authorizations := [] } rfl).mpr rfl

/-- A concrete update context whose planned domain set differs from the
last-read one. -/
def sampleUpdateChanged : UpdateContext :=
  { id := "sid"
    oldDomains := ["a.com"]
    newDomains := ["a.com", "b.com"]
    oldCommonName := "a.com"
    newCommonName := "a.com"
    configurationID := "c1"
    forceUpdate := false }

/-- A concrete update context with no change to domains or common name. -/
def sampleUpdateUnchanged : UpdateContext :=
  { sampleUpdateChanged with newDomains := ["a.com"] }

/-- Claim C4 (counterexample): with a changed domain set and a failing
remote update call, Update returns the fatal diagnostic and never reaches
the final Read, contradicting "in every case (changed or not) Update
finishes by performing a Read". -/
theorem tls_update_always_reads_cex :
    (resourceFastlyTLSSubscriptionUpdate sampleUpdateChanged
        (.error "remote failure")).2 = .fatal "remote failure" ∧
      UpdateOutcome.fatal "remote failure" ≠ .readPerformed := by
  exact ⟨rfl, by decide⟩

/-- Claim C4 (corrected): Update issues the remote update call if and only
if the domain set or the common name differs from the last-read state; the
request then carries the full planned domain set, the common name and the
configuration ID together (plus the ID and force flag); when the remote
call succeeds or is not needed, Update finishes by performing a Read, but a
failing remote call aborts with a fatal diagnostic without reading. -/
theorem tls_update_amended (c : UpdateContext) (r : Except String Unit) :
    ((resourceFastlyTLSSubscriptionUpdate c r).1.isSome ↔
      (c.newDomains ≠ c.oldDomains ∨ c.newCommonName ≠ c.oldCommonName)) ∧
    (∀ i, (resourceFastlyTLSSubscriptionUpdate c r).1 = some i →
      i.domains = c.newDomains ∧ i.commonName = c.newCommonName ∧
        i.configurationID = c.configurationID ∧ i.id = c.id ∧
        i.force = c.forceUpdate) ∧
    (r = .ok () → (resourceFastlyTLSSubscriptionUpdate c r).2 = .readPerformed) ∧
    ((c.newDomains = c.oldDomains ∧ c.newCommonName = c.oldCommonName) →
      resourceFastlyTLSSubscriptionUpdate c r = (none, .readPerformed)) ∧
    (∀ e, r = .error e →
      (c.newDomains ≠ c.oldDomains ∨ c.newCommonName ≠ c.oldCommonName) →
      (resourceFastlyTLSSubscriptionUpdate c r).2 = .fatal e) := by
  by_cases hch : c.newDomains ≠ c.oldDomains ∨ c.newCommonName ≠ c.oldCommonName
  · refine ⟨?_, ?_, ?_, ?_, ?_⟩
    · cases r <;> simp [resourceFastlyTLSSubscriptionUpdate, hch]
    · intro i hi
      have hupd : (resourceFastlyTLSSubscriptionUpdate c r).1 =
          some ⟨c.id, c.forceUpdate, c.newCommonName, c.newDomains,
            c.configurationID⟩ := by
        cases r <;> simp [resourceFastlyTLSSubscriptionUpdate, hch]
      rw [hupd] at hi
      cases hi
      exact ⟨rfl, rfl, rfl, rfl, rfl⟩
    · intro hr
      subst hr
      simp [resourceFastlyTLSSubscriptionUpdate, hch]
    · intro hcu
      rcases hch with h | h
      · exact absurd hcu.1 h
      · exact absurd hcu.2 h
    · intro e hr _
      subst hr
      simp [resourceFastlyTLSSubscriptionUpdate, hch]
  · refine ⟨?_, ?_, ?_, ?_, ?_⟩
    · simp [resourceFastlyTLSSubscriptionUpdate, hch]
    · intro i hi
      simp [resourceFastlyTLSSubscriptionUpdate, hch] at hi
    · intro _
      simp [resourceFastlyTLSSubscriptionUpdate, hch]
    · intro _
      simp [resourceFastlyTLSSubscriptionUpdate, hch]
    · intro e hr hne
      exact absurd hne hch

/-- Witness for the amended C4: an unchanged context performs only the
read, and a changed context with a successful remote call also reads. -/
theorem tls_update_amended_witness :
    resourceFastlyTLSSubscriptionUpdate sampleUpdateUnchanged (.ok ()) =
      (none, .readPerformed) :=
  (tls_update_amended sampleUpdateUnchanged (.ok ())).2.2.2.1 ⟨by decide, rfl⟩

/-- Claim C5 (confirmed): given a planned change to any of
`configuration_id`, `domains` or `common_name`, the diff customization
forces full replacement if and only if the last-known remote state is
neither `issued` nor `pending`; in the `issued` and `pending` states no
combination of these changes forces replacement. -/
theorem tls_forcenew_iff_state_immutable (cfg dom cn : Bool) (state : String)
    (h : cfg = true ∨ dom = true ∨ cn = true) :
    (resourceForcesReplacement cfg dom cn state = true ↔
      ¬(state = "issued" ∨ state = "pending")) ∧
    resourceForcesReplacement cfg dom cn "issued" = false ∧
    resourceForcesReplacement cfg dom cn "pending" = false := by
  refine ⟨?_, ?_, ?_⟩
  · rcases h with h | h | h <;> subst h <;>
      simp only [resourceForcesReplacement, forceNewIf,
        resourceFastlyTLSSubscriptionIsStateImmutable, Bool.or_eq_true,
        Bool.and_eq_true, Bool.true_and, decide_eq_true_eq, not_or, ne_eq] <;>
      tauto
  · simp [resourceForcesReplacement, forceNewIf,
      resourceFastlyTLSSubscriptionIsStateImmutable]
  · simp [resourceForcesReplacement, forceNewIf,
      resourceFastlyTLSSubscriptionIsStateImmutable]

/-- Witness for C5: a configuration change in the `processing` state
forces replacement. -/
theorem tls_forcenew_iff_state_immutable_witness :
    resourceForcesReplacement true false false "processing" = true :=
  (tls_forcenew_iff_state_immutable true false false "processing"
    (Or.inl rfl)).1.mpr (by decide)

/-- Claim C7 (confirmed): when a common name is supplied and is not a
member of the domain set, Create fails with the diagnostic before the
remote create call is issued; when the common name is absent or a member,
the check passes and the remote create call is issued with the populated
input. -/
theorem tls_create_common_name_guard (c : CreateContext) :
    (∀ cn, c.commonName = some cn → cn ∉ c.domains →
      resourceFastlyTLSSubscriptionCreate c =
        .error "domain specified as common_name must also be in domains") ∧
    ((c.commonName = none ∨ ∃ cn, c.commonName = some cn ∧ cn ∈ c.domains) →
      resourceFastlyTLSSubscriptionCreate c =
        .ok ⟨c.certificateAuthority, c.configurationID, c.domains, c.commonName⟩) := by
  constructor
  · intro cn hcn hmem
    simp [resourceFastlyTLSSubscriptionCreate, hcn, contains, List.contains,
      List.elem_iff, hmem]
  · rintro (hnone | ⟨cn, hcn, hmem⟩)
    · simp [resourceFastlyTLSSubscriptionCreate, hnone]
    · simp [resourceFastlyTLSSubscriptionCreate, hcn, contains, List.contains,
        List.elem_iff, hmem]

/-- Witness for C7: a supplied common name contained in the domain set
passes the check and the create call carries it. -/
theorem tls_create_common_name_guard_witness :
    resourceFastlyTLSSubscriptionCreate
        ⟨"lets-encrypt", none, ["a.com", "b.com"], some "a.com"⟩ =
      .ok ⟨"lets-encrypt", none, ["a.com", "b.com"], some "a.com"⟩ :=
  (tls_create_common_name_guard
      ⟨"lets-encrypt", none, ["a.com", "b.com"], some "a.com"⟩).2
    (Or.inr ⟨"a.com", rfl, by decide⟩)

/-- A map that returns its input list unchanged fixes every element. -/
theorem list_map_eq_self_of_eq {α : Type} (f : α → α) (l : List α)
    (h : l.map f = l) : ∀ x ∈ l, f x = x := by
  induction l with
  | nil => intro x hx; cases hx
  | cons a as ih =>
    rw [List.map_cons] at h
    injection h with h₁ h₂
    intro x hx
    rcases List.mem_cons.mp hx with rfl | hx
    · exact h₁
    · exact ih h₂ x hx

/-- A string containing a character that the lowercase mapping changes
differs from its lowercase form. -/
theorem goToLower_ne_of_changed_mem (s : String) (ch : Char)
    (hch : ch ∈ s.data) (hu : unicodeToLower ch ≠ ch) : s ≠ goToLower s := by
  intro heq
  have hdata : s.data = s.data.map unicodeToLower := congrArg String.data heq
  exact hu (list_map_eq_self_of_eq unicodeToLower s.data hdata.symm ch hch)

/-- An `Except String Unit` that is not `ok` is an error. -/
theorem except_unit_error {e : Except String Unit} (h : e ≠ .ok ()) :
    ∃ msg, e = .error msg := by
  cases e with
  | error m => exact ⟨m, rfl⟩
  | ok u => cases u; exact absurd rfl h

/-- The domain validation succeeds exactly when every entry equals its own
lowercase form. -/
theorem validateDomains_ok_iff (domains : List String) :
    resourceFastlyTLSSubscriptionValidateDomains domains = .ok () ↔
      ∀ d ∈ domains, d = goToLower d := by
  induction domains with
  | nil => simp [resourceFastlyTLSSubscriptionValidateDomains]
  | cons d ds ih =>
    by_cases hd : d ≠ goToLower d
    · simp only [resourceFastlyTLSSubscriptionValidateDomains, if_pos hd]
      constructor
      · intro hcontra; cases hcontra
      · intro hall; exact absurd (hall d (List.mem_cons_self d ds)) hd
    · have hd' : d = goToLower d := not_not.mp hd
      simp only [resourceFastlyTLSSubscriptionValidateDomains, if_neg hd]
      rw [ih]
      constructor
      · intro hall x hx
        rcases List.mem_cons.mp hx with rfl | hx
        · exact hd'
        · exact hall x hx
      · intro hall x hx
        exact hall x (List.mem_cons_of_mem d hx)

/-- Claim C8 (confirmed): the plan-time validation of `domains` succeeds
exactly when every entry equals its own lowercase form, and fails with an
error for any entry containing an upper-case character — rendered
character-wise as an entry containing a character that the lowercase
mapping changes, which are exactly the upper- and title-case letters with
a distinct lowercase form (ASCII and non-ASCII alike); likewise for the
`common_name` validation.  Both are pure checks: no remote call is
involved. -/
theorem tls_validate_lowercase (domains : List String) (cn : String) :
    (resourceFastlyTLSSubscriptionValidateDomains domains = .ok () ↔
      ∀ d ∈ domains, d = goToLower d) ∧
    ((∃ d ∈ domains, ∃ ch ∈ d.data, unicodeToLower ch ≠ ch) →
      ∃ e, resourceFastlyTLSSubscriptionValidateDomains domains = .error e) ∧
    (resourceFastlyTLSSubscriptionValidateCommonName cn = .ok () ↔
      cn = goToLower cn) ∧
    ((∃ ch ∈ cn.data, unicodeToLower ch ≠ ch) →
      ∃ e, resourceFastlyTLSSubscriptionValidateCommonName cn = .error e) := by
  have hcn : resourceFastlyTLSSubscriptionValidateCommonName cn = .ok () ↔
      cn = goToLower cn := by
    unfold resourceFastlyTLSSubscriptionValidateCommonName
    by_cases hne : cn ≠ goToLower cn
    · rw [if_pos hne]
      constructor
      · intro hcontra; cases hcontra
      · intro hcontra; exact absurd hcontra hne
    · rw [if_neg hne]
      exact iff_of_true rfl (not_not.mp hne)
  refine ⟨validateDomains_ok_iff domains, ?_, hcn, ?_⟩
  · rintro ⟨d, hd, ch, hch, hu⟩
    apply except_unit_error
    intro hok
    exact goToLower_ne_of_changed_mem d ch hch hu
      ((validateDomains_ok_iff domains).mp hok d hd)
  · rintro ⟨ch, hch, hu⟩
    apply except_unit_error
    intro hok
    exact goToLower_ne_of_changed_mem cn ch hch hu (hcn.mp hok)

/-- Witness for C8: an ASCII upper-case entry and a non-ASCII upper-case
entry make the validations fail, while an all-lowercase non-ASCII entry
passes. -/
theorem tls_validate_lowercase_witness :
    (∃ e, resourceFastlyTLSSubscriptionValidateDomains ["É.com"] =
      .error e) ∧
    (∃ e, resourceFastlyTLSSubscriptionValidateCommonName "Example.com" =
      .error e) ∧
    resourceFastlyTLSSubscriptionValidateDomains ["é.com"] = .ok () :=
  ⟨(tls_validate_lowercase ["É.com"] "Example.com").2.1
      ⟨"É.com", by decide, 'É', by decide, by decide⟩,
    (tls_validate_lowercase ["É.com"] "Example.com").2.2.2
      ⟨'E', by decide, by decide⟩,
    (tls_validate_lowercase ["é.com"] "x").1.mpr (by decide)⟩

/-- The per-authorization partition errors exactly when some `managed-dns`
challenge has an empty value list. -/
theorem classifyChallenges_error_iff (cs : List TLSChallenge) :
    (∃ e, classifyChallenges cs = .error e) ↔
      ∃ c ∈ cs, c.ctype = "managed-dns" ∧ c.values = [] := by
  induction cs with
  | nil => simp [classifyChallenges]
  | cons c cs ih =>
    by_cases hdns : c.ctype = "managed-dns"
    · cases hv : c.values with
      | nil =>
        simp only [classifyChallenges, if_pos hdns, hv]
        constructor
        · intro _
          exact ⟨c, List.mem_cons_self c cs, hdns, hv⟩
        · intro _
          exact ⟨_, rfl⟩
      | cons v vs =>
        simp only [classifyChallenges, if_pos hdns, hv]
        cases hrec : classifyChallenges cs with
        | error e =>
          constructor
          · intro _
            obtain ⟨x, hx, hxd, hxv⟩ := ih.mp ⟨e, hrec⟩
            exact ⟨x, List.mem_cons_of_mem c hx, hxd, hxv⟩
          · intro _
            exact ⟨e, rfl⟩
        | ok p =>
          obtain ⟨ds, hs⟩ := p
          constructor
          · rintro ⟨e, he⟩
            cases he
          · rintro ⟨x, hx, hxd, hxv⟩
            rcases List.mem_cons.mp hx with rfl | hx
            · rw [hv] at hxv
              cases hxv
            · obtain ⟨e, he⟩ := ih.mpr ⟨x, hx, hxd, hxv⟩
              rw [he] at hrec
              cases hrec
    · simp only [classifyChallenges, if_neg hdns]
      cases hrec : classifyChallenges cs with
      | error e =>
        constructor
        · intro _
          obtain ⟨x, hx, hxd, hxv⟩ := ih.mp ⟨e, hrec⟩
          exact ⟨x, List.mem_cons_of_mem c hx, hxd, hxv⟩
        · intro _
          exact ⟨e, rfl⟩
      | ok p =>
        obtain ⟨ds, hs⟩ := p
        constructor
        · rintro ⟨e, he⟩
          cases he
        · rintro ⟨x, hx, hxd, hxv⟩
          rcases List.mem_cons.mp hx with rfl | hx
          · exact absurd hxd hdns
          · obtain ⟨e, he⟩ := ih.mpr ⟨x, hx, hxd, hxv⟩
            rw [he] at hrec
            cases hrec

/-- A successful per-authorization partition yields exactly the
`managed-dns` challenges (first value each) and the remaining challenges
(all values), in order. -/
theorem classifyChallenges_ok_eq (cs : List TLSChallenge)
    (ds : List ManagedDNSChallenge) (hs : List ManagedHTTPChallenge)
    (h : classifyChallenges cs = .ok (ds, hs)) :
    ds = (cs.filter fun c => c.ctype == "managed-dns").map
        (fun c => ⟨c.recordType, c.recordName, c.values.headD ""⟩) ∧
    hs = (cs.filter fun c => !(c.ctype == "managed-dns")).map
        (fun c => ⟨c.recordType, c.recordName, c.values⟩) := by
  induction cs generalizing ds hs with
  | nil =>
    simp only [classifyChallenges, Except.ok.injEq] at h
    obtain ⟨h₁, h₂⟩ := Prod.mk.injEq .. ▸ h
    simp [← h₁, ← h₂]
  | cons c cs ih =>
    simp only [classifyChallenges] at h
    by_cases hdns : c.ctype = "managed-dns"
    · rw [if_pos hdns] at h
      cases hv : c.values with
      | nil =>
        rw [hv] at h
        cases h
      | cons v vs =>
        rw [hv] at h
        cases hrec : classifyChallenges cs with
        | error e =>
          rw [hrec] at h
          cases h
        | ok p =>
          obtain ⟨ds', hs'⟩ := p
          rw [hrec] at h
          cases h
          obtain ⟨ih₁, ih₂⟩ := ih _ _ hrec
          constructor
          · simp [List.filter_cons, hdns, hv, ih₁]
          · simp [List.filter_cons, hdns, ih₂]
    · rw [if_neg hdns] at h
      cases hrec : classifyChallenges cs with
      | error e =>
        rw [hrec] at h
        cases h
      | ok p =>
        obtain ⟨ds', hs'⟩ := p
        rw [hrec] at h
        cases h
        obtain ⟨ih₁, ih₂⟩ := ih _ _ hrec
        constructor
        · simp [List.filter_cons, hdns, ih₁]
        · simp [List.filter_cons, hdns, ih₂]

/-- The full partition errors exactly when some challenge of some
authorization is a `managed-dns` challenge with no values. -/
theorem classifyAuthorizations_error_iff (auths : List TLSAuthorization) :
    (∃ e, classifyAuthorizations auths = .error e) ↔
      ∃ c ∈ auths.flatMap TLSAuthorization.challenges,
        c.ctype = "managed-dns" ∧ c.values = [] := by
  induction auths with
  | nil => simp [classifyAuthorizations]
  | cons a as_ ih =>
    simp only [classifyAuthorizations, List.flatMap_cons, List.mem_append]
    cases hc : classifyChallenges a.challenges with
    | error e =>
      constructor
      · intro _
        obtain ⟨x, hx, hh⟩ := (classifyChallenges_error_iff a.challenges).mp ⟨e, hc⟩
        exact ⟨x, Or.inl hx, hh⟩
      · intro _
        exact ⟨e, rfl⟩
    | ok p =>
      obtain ⟨d₁, h₁⟩ := p
      cases hrec : classifyAuthorizations as_ with
      | error e =>
        constructor
        · intro _
          obtain ⟨x, hx, hh⟩ := ih.mp ⟨e, hrec⟩
          exact ⟨x, Or.inr hx, hh⟩
        · intro _
          exact ⟨e, rfl⟩
      | ok q =>
        obtain ⟨d₂, h₂⟩ := q
        constructor
        · rintro ⟨e, he⟩
          cases he
        · rintro ⟨x, hx | hx, hh⟩
          · obtain ⟨e, he⟩ :=
              (classifyChallenges_error_iff a.challenges).mpr ⟨x, hx, hh⟩
            rw [he] at hc
            cases hc
          · obtain ⟨e, he⟩ := ih.mpr ⟨x, hx, hh⟩
            rw [he] at hrec
            cases hrec

/-- A successful full partition is the filtered map over the concatenation
of every authorization's challenges. -/
theorem classifyAuthorizations_ok_eq (auths : List TLSAuthorization)
    (ds : List ManagedDNSChallenge) (hs : List ManagedHTTPChallenge)
    (h : classifyAuthorizations auths = .ok (ds, hs)) :
    ds = ((auths.flatMap TLSAuthorization.challenges).filter
        (fun c => c.ctype == "managed-dns")).map
        (fun c => ⟨c.recordType, c.recordName, c.values.headD ""⟩) ∧
    hs = ((auths.flatMap TLSAuthorization.challenges).filter
        (fun c => !(c.ctype == "managed-dns"))).map
        (fun c => ⟨c.recordType, c.recordName, c.values⟩) := by
  induction auths generalizing ds hs with
  | nil =>
    simp only [classifyAuthorizations, Except.ok.injEq] at h
    obtain ⟨h₁, h₂⟩ := Prod.mk.injEq .. ▸ h
    simp [← h₁, ← h₂]
  | cons a as_ ih =>
    simp only [classifyAuthorizations] at h
    cases hc : classifyChallenges a.challenges with
    | error e =>
      rw [hc] at h
      cases h
    | ok p =>
      obtain ⟨d₁, h₁⟩ := p
      rw [hc] at h
      cases hrec : classifyAuthorizations as_ with
      | error e =>
        rw [hrec] at h
        cases h
      | ok q =>
        obtain ⟨d₂, h₂⟩ := q
        rw [hrec] at h
        cases h
        obtain ⟨g₁, g₂⟩ := classifyChallenges_ok_eq a.challenges _ _ hc
        obtain ⟨g₃, g₄⟩ := ih _ _ hrec
        constructor
        · simp [List.flatMap_cons, List.filter_append, g₁, g₃]
        · simp [List.flatMap_cons, List.filter_append, g₂, g₄]

/-- Claim C3 (confirmed): Read's challenge partition places each
`managed-dns` challenge in the DNS collection with exactly its first
record value (even when the payload supplies several), places every other
challenge in the HTTP collection with all its values, errors exactly when
some `managed-dns` challenge has zero values, and on such an error Read
returns the fatal diagnostic. -/
theorem tls_read_challenge_partition (auths : List TLSAuthorization) :
    ((∃ e, classifyAuthorizations auths = .error e) ↔
      ∃ c ∈ auths.flatMap TLSAuthorization.challenges,
        c.ctype = "managed-dns" ∧ c.values = []) ∧
    (∀ ds hs, classifyAuthorizations auths = .ok (ds, hs) →
      ds = ((auths.flatMap TLSAuthorization.challenges).filter
          (fun c => c.ctype == "managed-dns")).map
          (fun c => ⟨c.recordType, c.recordName, c.values.headD ""⟩) ∧
      hs = ((auths.flatMap TLSAuthorization.challenges).filter
          (fun c => !(c.ctype == "managed-dns"))).map
          (fun c => ⟨c.recordType, c.recordName, c.values⟩)) ∧
    (∀ (id e : String) (r : Except String (List TLSDomain))
        (sub : TLSSubscription),
      sub.authorizations = auths →
      classifyAuthorizations auths = .error e →
      resourceFastlyTLSSubscriptionRead id ⟨.ok sub, r⟩ = some (.fatal e)) := by
  refine ⟨classifyAuthorizations_error_iff auths,
    fun ds hs h => classifyAuthorizations_ok_eq auths ds hs h, ?_⟩
  intro id e r sub hsub herr
  simp only [resourceFastlyTLSSubscriptionRead, hsub, herr]

/-- Witness for C3: one authorization holding a two-value `managed-dns`
challenge and a `managed-http` challenge partitions into one DNS entry
carrying only the first value and one HTTP entry carrying both. -/
theorem tls_read_challenge_partition_witness :
    ([⟨"CNAME", "n1", "v1"⟩] : List ManagedDNSChallenge) =
      ((([⟨[⟨"managed-dns", "CNAME", "n1", ["v1", "v2"]⟩,
            ⟨"managed-http", "A", "n2", ["w1", "w2"]⟩]⟩] :
          List TLSAuthorization).flatMap TLSAuthorization.challenges).filter
          (fun c => c.ctype == "managed-dns")).map
          (fun c => ⟨c.recordType, c.recordName, c.values.headD ""⟩) ∧
    ([⟨"A", "n2", ["w1", "w2"]⟩] : List ManagedHTTPChallenge) =
      ((([⟨[⟨"managed-dns", "CNAME", "n1", ["v1", "v2"]⟩,
            ⟨"managed-http", "A", "n2", ["w1", "w2"]⟩]⟩] :
          List TLSAuthorization).flatMap TLSAuthorization.challenges).filter
          (fun c => !(c.ctype == "managed-dns"))).map
          (fun c => ⟨c.recordType, c.recordName, c.values⟩) :=
  (tls_read_challenge_partition
      [⟨[⟨"managed-dns", "CNAME", "n1", ["v1", "v2"]⟩,
         ⟨"managed-http", "A", "n2", ["w1", "w2"]⟩]⟩]).2.1
    [⟨"CNAME", "n1", "v1"⟩] [⟨"A", "n2", ["w1", "w2"]⟩] (by rfl)

end FastlyTLS

namespace Hashcode

/-- One bit-step of the reflected CRC-32: shift right and conditionally
fold in the reversed IEEE polynomial `0xEDB88320`. -/
def crc32Round (crc : Nat) : Nat :=
  if crc % 2 = 1 then (crc / 2) ^^^ 0xEDB88320 else crc / 2

/-- Absorb one byte into the running CRC: xor it into the low bits and run
eight bit-steps. -/
def crc32Byte (crc b : Nat) : Nat := crc32Round^[8] (crc ^^^ b)

/-- Fold the CRC over a byte list. -/
def crc32Bytes : Nat → List Nat → Nat
  | crc, [] => crc
  | crc, b :: bs => crc32Bytes (crc32Byte crc b) bs

/-- The UTF-8 bytes of a string, modelling Go's `[]byte(s)` conversion. -/
def stringBytes (s : String) : List Nat := s.toUTF8.data.toList.map UInt8.toNat

/-- Modelled from the spec: `crc32.ChecksumIEEE` comes from the Go standard
library (outside the sources); the spec calls it "a standard
cyclic-redundancy checksum", embodied here as the canonical reflected
CRC-32 (IEEE): initial value `0xFFFFFFFF`, per-byte bit-steps over the
reversed polynomial, final complement. -/
def checksumIEEE (s : String) : Nat :=
  crc32Bytes 0xFFFFFFFF (stringBytes s) ^^^ 0xFFFFFFFF

/-- Reinterpretation of a `Nat` below `2 ^ 64` as a signed two's-complement
64-bit integer, modelling Go's `int(...)` cast on 64-bit platforms. -/
def toInt64 (n : Nat) : Int := if n < 2 ^ 63 then (n : Int) else (n : Int) - 2 ^ 64

/-- Wrapping negation on signed 64-bit values, modelling Go's unary minus
on `int`: the minimum value is its own negation. -/
def negInt64 (v : Int) : Int := if v = -(2 ^ 63) then v else -v

/-- `hashcode.String` (hashcode.go lines 14–24): cast the CRC-32 checksum
to `int`, return it if non-negative, otherwise return its (wrapping)
negation if that is non-negative, otherwise 0. -/
def hashcodeString (s : String) : Int :=
  let v := toInt64 (checksumIEEE s)
  if 0 ≤ v then v
  else if 0 ≤ negInt64 v then negInt64 v
  else 0

/-- One CRC bit-step stays below `2 ^ 32`. -/
theorem crc32Round_lt (crc : Nat) (h : crc < 2 ^ 32) : crc32Round crc < 2 ^ 32 := by
  unfold crc32Round
  split
  · exact Nat.xor_lt_two_pow (by omega) (by norm_num)
  · omega

/-- Any number of CRC bit-steps stays below `2 ^ 32`. -/
theorem crc32Round_iter_lt (n x : Nat) (h : x < 2 ^ 32) :
    crc32Round^[n] x < 2 ^ 32 := by
  induction n generalizing x with
  | zero => simpa using h
  | succ k ih =>
    rw [Function.iterate_succ_apply]
    exact ih _ (crc32Round_lt x h)

/-- Absorbing a byte keeps the CRC below `2 ^ 32`. -/
theorem crc32Byte_lt (crc b : Nat) (hc : crc < 2 ^ 32) (hb : b < 256) :
    crc32Byte crc b < 2 ^ 32 := by
  unfold crc32Byte
  exact crc32Round_iter_lt 8 _
    (Nat.xor_lt_two_pow hc (lt_trans hb (by norm_num)))

/-- Folding the CRC over bytes keeps it below `2 ^ 32`. -/
theorem crc32Bytes_lt (bs : List Nat) (crc : Nat) (hc : crc < 2 ^ 32)
    (hb : ∀ b ∈ bs, b < 256) : crc32Bytes crc bs < 2 ^ 32 := by
  induction bs generalizing crc with
  | nil => exact hc
  | cons b bs ih =>
    show crc32Bytes (crc32Byte crc b) bs < 2 ^ 32
    exact ih _ (crc32Byte_lt crc b hc (hb b (List.mem_cons_self b bs)))
      (fun x hx => hb x (List.mem_cons_of_mem b hx))

/-- UTF-8 bytes are below 256. -/
theorem stringBytes_lt (s : String) : ∀ b ∈ stringBytes s, b < 256 := by
  intro b hb
  simp only [stringBytes, List.mem_map] at hb
  obtain ⟨u, _, rfl⟩ := hb
  exact u.toBitVec.isLt

/-- The checksum is below `2 ^ 32`. -/
theorem checksumIEEE_lt (s : String) : checksumIEEE s < 2 ^ 32 :=
  Nat.xor_lt_two_pow
    (crc32Bytes_lt _ _ (by norm_num) (stringBytes_lt s)) (by norm_num)

/-- Claim C10 (confirmed): `hashcode.String` is a function of its input,
hence deterministic, it returns a non-negative integer on every input, and
on `"test"` it returns the fixed value 3632233996 (the CRC-32 IEEE
checksum of `"test"`, which fits in a signed 64-bit `int`, so the
negation/minimum branches are not taken). -/
theorem tls_hashcode_string_nonneg :
    (∀ s : String, 0 ≤ hashcodeString s) ∧
      hashcodeString "test" = 3632233996 := by
  constructor
  · intro s
    have h32 : checksumIEEE s < 2 ^ 32 := checksumIEEE_lt s
    have hv : toInt64 (checksumIEEE s) = (checksumIEEE s : Int) := by
      unfold toInt64
      rw [if_pos (lt_trans h32 (by norm_num))]
    simp only [hashcodeString, hv]
    rw [if_pos (Int.natCast_nonneg _)]
    exact Int.natCast_nonneg _
  · rfl

end Hashcode
